import Mathlib

/-!
# Pong (`src/main.cpp`): game-state update logic

A shallow embedding of the game logic of `main.cpp` (`resetBall`, `updatePaddles`,
`updateAIPaddle`, `checkBallCollisions`, `updateGame` and the input callbacks).

Modelling conventions.

* The C++ `float` globals are modelled by an arbitrary linearly ordered field `α`
  with exact arithmetic (no rounding, no NaN, no infinities).  The model runs on `ℚ`;
  the theorems that need trigonometry are stated on `ℝ`.  A `float` literal is read as
  the decimal it denotes (`0.1f` as `1/10`, `0.75f` as `3/4`).
* The `<cmath>` functions `std::cos`, `std::sin`, `std::sqrt` and the constant `M_PI`
  are passed in as a record `CMath α`; on `ℝ` they are instantiated with
  `Real.cos`, `Real.sin`, `Real.sqrt`, `Real.pi`.
* `std::rand()` is modelled by extra `Nat` arguments, one for every call site that a
  function can reach: the theorems quantify over all of them.
* The `int` scores are modelled by `Int` (no overflow: the scores stay below
  `WINNING_SCORE + 1` in every reachable state).
* The GLUT calls (`glutPostRedisplay`, `glutTimerFunc`, drawing) do not touch the
  game state and are left out.
-/

namespace Pong

/-- The part of `<cmath>` used by the game logic. -/
structure CMath (α : Type) where
  cos : α → α
  sin : α → α
  sqrt : α → α
  /-- The constant `M_PI`. -/
  pi : α

/-- The global game-state variables of `main.cpp`. -/
structure GameState (α : Type) where
  /-- Vertical centre of the left (AI) paddle. -/
  paddle1Y : α
  /-- Vertical centre of the right (human) paddle. -/
  paddle2Y : α
  ballX : α
  ballY : α
  ballVelX : α
  ballVelY : α
  /-- Score of the AI (left). -/
  score1 : Int
  /-- Score of the human player (right). -/
  score2 : Int
  paddle2Up : Bool
  paddle2Down : Bool
  gameRunning : Bool

section Model

variable {α : Type} [LinearOrderedField α]

/-! ### Configuration constants -/

def WINDOW_WIDTH : Int := 800
def WINDOW_HEIGHT : Int := 600
def PADDLE_HEIGHT : α := 100
def PADDLE_WIDTH : α := 15
def PADDLE_SPEED : α := 10
def AI_LAG_FACTOR : α := 3 / 4
def AI_SPEED : α := 8
def BALL_RADIUS : α := 10
def WINNING_SCORE : Int := 10

/-- The global `ballSpeedIncrease` is initialised to `0.5f` and never assigned. -/
def ballSpeedIncrease : α := 1 / 2

/-- The key code `GLUT_KEY_UP` of `GL/glut.h`. -/
def GLUT_KEY_UP : Int := 101

/-- The key code `GLUT_KEY_DOWN` of `GL/glut.h`. -/
def GLUT_KEY_DOWN : Int := 103

/-- The static initialisers of the global variables. -/
def initialState : GameState α :=
  { paddle1Y := (WINDOW_HEIGHT : α) / 2
    paddle2Y := (WINDOW_HEIGHT : α) / 2
    ballX := (WINDOW_WIDTH : α) / 2
    ballY := (WINDOW_HEIGHT : α) / 2
    ballVelX := 5
    ballVelY := 0
    score1 := 0
    score2 := 0
    paddle2Up := false
    paddle2Down := false
    gameRunning := true }

/-! ### Game logic -/

/-- Function `resetBall(scoringPlayer)`; `r` is the value returned by `std::rand()`. -/
def resetBall (m : CMath α) (r : Nat) (scoringPlayer : Int) (s : GameState α) :
    GameState α :=
  let ballVelX0 : α := if scoringPlayer = 1 then 5 else -5
  let angle0 : α := (((r % 90 : Nat) : Int) - 45 : Int)
  let angle : α := angle0 * (m.pi / 180)
  let speed : α := |ballVelX0|
  { s with
    ballX := (WINDOW_WIDTH : α) / 2
    ballY := (WINDOW_HEIGHT : α) / 2
    ballVelX := m.cos angle * (if ballVelX0 > 0 then speed else -speed)
    ballVelY := m.sin angle * speed }

/-- The tracking block of `updateAIPaddle` (the `if (ballVelX < 0)` statement):
the value of `paddle1Y` before the two clamping assignments. -/
def aiTrack (s : GameState α) : α :=
  if s.ballVelX < 0 then
    let targetY : α := s.ballY * AI_LAG_FACTOR + ((WINDOW_HEIGHT : α) / 2) * (1 - AI_LAG_FACTOR)
    let difference : α := targetY - s.paddle1Y
    if |difference| > 1 / 10 then
      let moveDistance : α := if |difference| < AI_SPEED then |difference| else AI_SPEED
      if difference > 0 then s.paddle1Y + moveDistance else s.paddle1Y - moveDistance
    else s.paddle1Y
  else s.paddle1Y

/-- Function `updateAIPaddle()`: the tracking block followed by the two clamps. -/
def updateAIPaddle (s : GameState α) : GameState α :=
  let p : α := aiTrack s
  let p : α := min p ((WINDOW_HEIGHT : α) - PADDLE_HEIGHT / 2)
  let p : α := max p (PADDLE_HEIGHT / 2)
  { s with paddle1Y := p }

/-- Function `updatePaddles()`: the human paddle follows the two latches, then the AI
paddle is updated. -/
def updatePaddles (s : GameState α) : GameState α :=
  let s1 : GameState α :=
    if s.paddle2Up then
      { s with paddle2Y := min (s.paddle2Y + PADDLE_SPEED) ((WINDOW_HEIGHT : α) - PADDLE_HEIGHT / 2) }
    else s
  let s2 : GameState α :=
    if s1.paddle2Down then
      { s1 with paddle2Y := max (s1.paddle2Y - PADDLE_SPEED) (PADDLE_HEIGHT / 2) }
    else s1
  updateAIPaddle s2

/-- Step 1 of `checkBallCollisions`: wall collision (top/bottom). -/
def wallCollision (s : GameState α) : GameState α :=
  if s.ballY + BALL_RADIUS > (WINDOW_HEIGHT : α) ∨ s.ballY - BALL_RADIUS < 0 then
    { s with
      ballVelY := s.ballVelY * (-1)
      ballY := max BALL_RADIUS (min s.ballY ((WINDOW_HEIGHT : α) - BALL_RADIUS)) }
  else s

/-- Step 2 of `checkBallCollisions`: collision with paddle 1 (left, AI). -/
def paddle1Collision (m : CMath α) (s : GameState α) : GameState α :=
  let paddle1X : α := PADDLE_WIDTH * 2
  if s.ballX - BALL_RADIUS < paddle1X + PADDLE_WIDTH ∧ s.ballVelX < 0 then
    if s.ballY < s.paddle1Y + PADDLE_HEIGHT / 2 ∧ s.ballY > s.paddle1Y - PADDLE_HEIGHT / 2 then
      let relativeY : α := s.ballY - s.paddle1Y
      let normalRelativeY : α := relativeY / (PADDLE_HEIGHT / 2)
      let currentSpeed : α := m.sqrt (s.ballVelX * s.ballVelX + s.ballVelY * s.ballVelY)
      let currentSpeed : α := currentSpeed + ballSpeedIncrease
      let maxAngle : α := m.pi / 4
      let angle : α := normalRelativeY * maxAngle
      { s with
        ballVelX := |m.cos angle * currentSpeed|
        ballVelY := m.sin angle * currentSpeed }
    else s
  else s

/-- Step 3 of `checkBallCollisions`: collision with paddle 2 (right, human). -/
def paddle2Collision (m : CMath α) (s : GameState α) : GameState α :=
  let paddle2X : α := (WINDOW_WIDTH : α) - PADDLE_WIDTH * 3
  if s.ballX + BALL_RADIUS > paddle2X ∧ s.ballVelX > 0 then
    if s.ballY < s.paddle2Y + PADDLE_HEIGHT / 2 ∧ s.ballY > s.paddle2Y - PADDLE_HEIGHT / 2 then
      let relativeY : α := s.ballY - s.paddle2Y
      let normalRelativeY : α := relativeY / (PADDLE_HEIGHT / 2)
      let currentSpeed : α := m.sqrt (s.ballVelX * s.ballVelX + s.ballVelY * s.ballVelY)
      let currentSpeed : α := currentSpeed + ballSpeedIncrease
      let maxAngle : α := m.pi / 4
      let angle : α := normalRelativeY * maxAngle
      { s with
        ballVelX := -|m.cos angle * currentSpeed|
        ballVelY := m.sin angle * currentSpeed }
    else s
  else s

/-- Step 4 of `checkBallCollisions`: goal on the left side (the human scores);
`r` is the value `std::rand()` returns inside `resetBall(2)`. -/
def goalLeft (m : CMath α) (r : Nat) (s : GameState α) : GameState α :=
  if s.ballX - BALL_RADIUS < 0 then
    let s1 : GameState α := { s with score2 := s.score2 + 1 }
    if s1.score2 ≥ WINNING_SCORE then { s1 with gameRunning := false }
    else resetBall m r 2 s1
  else s

/-- Step 5 of `checkBallCollisions`: goal on the right side (the AI scores);
`r` is the value `std::rand()` returns inside `resetBall(1)`. -/
def goalRight (m : CMath α) (r : Nat) (s : GameState α) : GameState α :=
  if s.ballX + BALL_RADIUS > (WINDOW_WIDTH : α) then
    let s1 : GameState α := { s with score1 := s.score1 + 1 }
    if s1.score1 ≥ WINNING_SCORE then { s1 with gameRunning := false }
    else resetBall m r 1 s1
  else s

/-- Function `checkBallCollisions()`: the five steps in source order. -/
def checkBallCollisions (m : CMath α) (rL rR : Nat) (s : GameState α) : GameState α :=
  goalRight m rR (goalLeft m rL (paddle2Collision m (paddle1Collision m (wallCollision s))))

/-- Function `updateGame(value)`: one tick of the timer. -/
def updateGame (m : CMath α) (rL rR : Nat) (s : GameState α) : GameState α :=
  if s.gameRunning then
    let s1 : GameState α := updatePaddles s
    let s2 : GameState α := { s1 with ballX := s1.ballX + s1.ballVelX }
    let s3 : GameState α := { s2 with ballY := s2.ballY + s2.ballVelY }
    checkBallCollisions m rL rR s3
  else s

/-! ### Input callbacks -/

/-- Callback `keyboardDown(key, x, y)`; `none` is `exit(0)`.  `r0` is the value of `std::rand()`
in the argument of `resetBall`, `r1` the one inside `resetBall`. -/
def keyboardDown (m : CMath α) (key : Nat) (r0 r1 : Nat) (s : GameState α) :
    Option (GameState α) :=
  if key = 32 then
    if !s.gameRunning then
      let s1 : GameState α := { s with score1 := 0, score2 := 0, gameRunning := true }
      some (resetBall m r1 (((r0 % 2 : Nat) : Int) + 1) s1)
    else some s
  else if key = 27 then none
  else some s

/-- Callback `keyboardUp(key, x, y)` has an empty body. -/
def keyboardUp (_key : Nat) (s : GameState α) : GameState α := s

/-- Callback `specialDown(key, x, y)`: sets a latch. -/
def specialDown (key : Int) (s : GameState α) : GameState α :=
  if key = GLUT_KEY_UP then { s with paddle2Up := true }
  else if key = GLUT_KEY_DOWN then { s with paddle2Down := true }
  else s

/-- Callback `specialUp(key, x, y)`: clears a latch. -/
def specialUp (key : Int) (s : GameState α) : GameState α :=
  if key = GLUT_KEY_UP then { s with paddle2Up := false }
  else if key = GLUT_KEY_DOWN then { s with paddle2Down := false }
  else s

/-- The game-state effect of `initGL()`: `resetBall(std::rand() % 2 + 1)`. -/
def initGL (m : CMath α) (r0 r1 : Nat) (s : GameState α) : GameState α :=
  resetBall m r1 (((r0 % 2 : Nat) : Int) + 1) s

/-! ### The event loop -/

/-- The callbacks that `glutMainLoop` dispatches, with the `std::rand()` values
they may consume. -/
inductive Event where
  | timer (rL rR : Nat)
  | keyDown (key : Nat) (r0 r1 : Nat)
  | keyUp (key : Nat)
  | spDown (key : Int)
  | spUp (key : Int)

/-- One dispatched callback; `none` when the process exits. -/
def dispatch (m : CMath α) (e : Event) (s : GameState α) : Option (GameState α) :=
  match e with
  | .timer rL rR => some (updateGame m rL rR s)
  | .keyDown key r0 r1 => keyboardDown m key r0 r1 s
  | .keyUp key => some (keyboardUp key s)
  | .spDown key => some (specialDown key s)
  | .spUp key => some (specialUp key s)

/-- The states the program can be in: after `initGL()` in `main`, then after any
number of dispatched callbacks. -/
inductive Reachable (m : CMath α) : GameState α → Prop where
  | init (r0 r1 : Nat) : Reachable m (initGL m r0 r1 initialState)
  | step (e : Event) (s t : GameState α) :
      Reachable m s → dispatch m e s = some t → Reachable m t

/-- Both paddle centres lie in `[PADDLE_HEIGHT/2, WINDOW_HEIGHT - PADDLE_HEIGHT/2]`. -/
def PaddlesInBounds (s : GameState α) : Prop :=
  (PADDLE_HEIGHT / 2 ≤ s.paddle1Y ∧ s.paddle1Y ≤ (WINDOW_HEIGHT : α) - PADDLE_HEIGHT / 2) ∧
  (PADDLE_HEIGHT / 2 ≤ s.paddle2Y ∧ s.paddle2Y ≤ (WINDOW_HEIGHT : α) - PADDLE_HEIGHT / 2)

end Model

/-- A state with both latches set and the human paddle 5 units below the upper bound. -/
def bothLatchesState : GameState ℚ :=
  { (initialState : GameState ℚ) with paddle2Y := 545, paddle2Up := true, paddle2Down := true }

/-! ### Frame lemmas: which globals each function leaves alone -/

section Frame

variable {α : Type} [LinearOrderedField α]

theorem wallCollision_frame (s : GameState α) :
    (wallCollision s).paddle1Y = s.paddle1Y ∧ (wallCollision s).paddle2Y = s.paddle2Y ∧
    (wallCollision s).ballX = s.ballX ∧ (wallCollision s).ballVelX = s.ballVelX ∧
    (wallCollision s).score1 = s.score1 ∧ (wallCollision s).score2 = s.score2 ∧
    (wallCollision s).gameRunning = s.gameRunning := by
  unfold wallCollision
  split_ifs <;> simp

theorem paddle1Collision_frame (m : CMath α) (s : GameState α) :
    (paddle1Collision m s).paddle1Y = s.paddle1Y ∧ (paddle1Collision m s).paddle2Y = s.paddle2Y ∧
    (paddle1Collision m s).ballX = s.ballX ∧ (paddle1Collision m s).ballY = s.ballY ∧
    (paddle1Collision m s).score1 = s.score1 ∧ (paddle1Collision m s).score2 = s.score2 ∧
    (paddle1Collision m s).gameRunning = s.gameRunning := by
  unfold paddle1Collision
  dsimp only
  split_ifs <;> simp

theorem paddle2Collision_frame (m : CMath α) (s : GameState α) :
    (paddle2Collision m s).paddle1Y = s.paddle1Y ∧ (paddle2Collision m s).paddle2Y = s.paddle2Y ∧
    (paddle2Collision m s).ballX = s.ballX ∧ (paddle2Collision m s).ballY = s.ballY ∧
    (paddle2Collision m s).score1 = s.score1 ∧ (paddle2Collision m s).score2 = s.score2 ∧
    (paddle2Collision m s).gameRunning = s.gameRunning := by
  unfold paddle2Collision
  dsimp only
  split_ifs <;> simp

theorem resetBall_frame (m : CMath α) (r : Nat) (k : Int) (s : GameState α) :
    (resetBall m r k s).paddle1Y = s.paddle1Y ∧ (resetBall m r k s).paddle2Y = s.paddle2Y ∧
    (resetBall m r k s).score1 = s.score1 ∧ (resetBall m r k s).score2 = s.score2 ∧
    (resetBall m r k s).gameRunning = s.gameRunning ∧
    (resetBall m r k s).ballX = (WINDOW_WIDTH : α) / 2 ∧
    (resetBall m r k s).ballY = (WINDOW_HEIGHT : α) / 2 := by
  simp [resetBall]

theorem goalLeft_paddles (m : CMath α) (r : Nat) (s : GameState α) :
    (goalLeft m r s).paddle1Y = s.paddle1Y ∧ (goalLeft m r s).paddle2Y = s.paddle2Y := by
  unfold goalLeft
  dsimp only
  split_ifs <;> simp [resetBall]

theorem goalRight_paddles (m : CMath α) (r : Nat) (s : GameState α) :
    (goalRight m r s).paddle1Y = s.paddle1Y ∧ (goalRight m r s).paddle2Y = s.paddle2Y := by
  unfold goalRight
  dsimp only
  split_ifs <;> simp [resetBall]

theorem checkBallCollisions_paddles (m : CMath α) (rL rR : Nat) (s : GameState α) :
    (checkBallCollisions m rL rR s).paddle1Y = s.paddle1Y ∧
    (checkBallCollisions m rL rR s).paddle2Y = s.paddle2Y := by
  unfold checkBallCollisions
  rw [(goalRight_paddles m rR _).1, (goalRight_paddles m rR _).2,
    (goalLeft_paddles m rL _).1, (goalLeft_paddles m rL _).2,
    (paddle2Collision_frame m _).1, (paddle2Collision_frame m _).2.1,
    (paddle1Collision_frame m _).1, (paddle1Collision_frame m _).2.1,
    (wallCollision_frame s).1, (wallCollision_frame s).2.1]
  exact ⟨rfl, rfl⟩

theorem preGoal_frame (m : CMath α) (s : GameState α) :
    (paddle2Collision m (paddle1Collision m (wallCollision s))).ballX = s.ballX ∧
    (paddle2Collision m (paddle1Collision m (wallCollision s))).score1 = s.score1 ∧
    (paddle2Collision m (paddle1Collision m (wallCollision s))).score2 = s.score2 ∧
    (paddle2Collision m (paddle1Collision m (wallCollision s))).gameRunning = s.gameRunning := by
  have h2 := paddle2Collision_frame m (paddle1Collision m (wallCollision s))
  have h1 := paddle1Collision_frame m (wallCollision s)
  have h0 := wallCollision_frame s
  refine ⟨?_, ?_, ?_, ?_⟩
  · rw [h2.2.2.1, h1.2.2.1, h0.2.2.1]
  · rw [h2.2.2.2.2.1, h1.2.2.2.2.1, h0.2.2.2.2.1]
  · rw [h2.2.2.2.2.2.1, h1.2.2.2.2.2.1, h0.2.2.2.2.2.1]
  · rw [h2.2.2.2.2.2.2, h1.2.2.2.2.2.2, h0.2.2.2.2.2.2]

theorem goalLeft_none (m : CMath α) (r : Nat) (s : GameState α)
    (h : ¬ s.ballX - BALL_RADIUS < 0) : goalLeft m r s = s := by
  rw [goalLeft, if_neg h]

theorem goalRight_none (m : CMath α) (r : Nat) (s : GameState α)
    (h : ¬ s.ballX + BALL_RADIUS > (WINDOW_WIDTH : α)) : goalRight m r s = s := by
  rw [goalRight, if_neg h]

theorem goalLeft_win (m : CMath α) (r : Nat) (s : GameState α)
    (h : s.ballX - BALL_RADIUS < 0) (hw : WINNING_SCORE ≤ s.score2 + 1) :
    goalLeft m r s = { s with score2 := s.score2 + 1, gameRunning := false } := by
  rw [goalLeft, if_pos h]
  dsimp only
  rw [if_pos hw]

theorem goalLeft_reset (m : CMath α) (r : Nat) (s : GameState α)
    (h : s.ballX - BALL_RADIUS < 0) (hw : s.score2 + 1 < WINNING_SCORE) :
    goalLeft m r s = resetBall m r 2 { s with score2 := s.score2 + 1 } := by
  rw [goalLeft, if_pos h]
  dsimp only
  rw [if_neg (not_le.mpr hw)]

theorem goalRight_reset (m : CMath α) (r : Nat) (s : GameState α)
    (h : s.ballX + BALL_RADIUS > (WINDOW_WIDTH : α)) (hw : s.score1 + 1 < WINNING_SCORE) :
    goalRight m r s = resetBall m r 1 { s with score1 := s.score1 + 1 } := by
  rw [goalRight, if_pos h]
  dsimp only
  rw [if_neg (not_le.mpr hw)]

/-- After a left goal the right-goal test fails: the ball is either still left of
`BALL_RADIUS` or recentred. -/
theorem goalRight_after_goalLeft (m : CMath α) (rL rR : Nat) (s : GameState α)
    (h : s.ballX - BALL_RADIUS < 0) :
    goalRight m rR (goalLeft m rL s) = goalLeft m rL s := by
  apply goalRight_none
  simp only [BALL_RADIUS] at h
  rcases le_or_lt WINNING_SCORE (s.score2 + 1) with hw | hw
  · rw [goalLeft_win m rL s h hw]
    simp only [BALL_RADIUS, WINDOW_WIDTH]
    push_cast
    intro hc
    linarith
  · rw [goalLeft_reset m rL s h hw, (resetBall_frame m _ _ _).2.2.2.2.2.1]
    simp only [BALL_RADIUS, WINDOW_WIDTH]
    norm_num

/-- The outcome of the two goal tests of `checkBallCollisions`, by cases on the
ball position. -/
theorem checkBallCollisions_goal (m : CMath α) (rL rR : Nat) (s : GameState α) :
    (s.ballX - BALL_RADIUS < 0 →
      checkBallCollisions m rL rR s
        = goalLeft m rL (paddle2Collision m (paddle1Collision m (wallCollision s)))) ∧
    (¬ s.ballX - BALL_RADIUS < 0 →
      checkBallCollisions m rL rR s
        = goalRight m rR (paddle2Collision m (paddle1Collision m (wallCollision s)))) := by
  constructor
  · intro h
    rw [checkBallCollisions]
    apply goalRight_after_goalLeft
    rw [(preGoal_frame m s).1]
    exact h
  · intro h
    rw [checkBallCollisions, goalLeft_none]
    rw [(preGoal_frame m s).1]
    exact h

theorem updateAIPaddle_bounds (s : GameState α) :
    PADDLE_HEIGHT / 2 ≤ (updateAIPaddle s).paddle1Y ∧
    (updateAIPaddle s).paddle1Y ≤ (WINDOW_HEIGHT : α) - PADDLE_HEIGHT / 2 := by
  simp only [updateAIPaddle, PADDLE_HEIGHT, WINDOW_HEIGHT]
  refine ⟨le_max_right _ _, max_le (min_le_right _ _) ?_⟩
  norm_num

theorem updatePaddles_inBounds (s : GameState α) (h : PaddlesInBounds s) :
    PaddlesInBounds (updatePaddles s) := by
  refine ⟨updateAIPaddle_bounds _, ?_⟩
  obtain ⟨p1, p2, bx, bY, vx, vy, s1, s2, up, dn, run⟩ := s
  obtain ⟨-, h2l, h2u⟩ := h
  simp only [PADDLE_HEIGHT, WINDOW_HEIGHT] at h2l h2u
  norm_num at h2l h2u
  cases up <;> cases dn <;>
    simp [updatePaddles, updateAIPaddle, PADDLE_HEIGHT, WINDOW_HEIGHT, PADDLE_SPEED] <;>
    norm_num <;>
    first
      | exact ⟨h2l, h2u⟩
      | linarith

theorem updateGame_inBounds (m : CMath α) (rL rR : Nat) (s : GameState α)
    (h : PaddlesInBounds s) : PaddlesInBounds (updateGame m rL rR s) := by
  unfold updateGame
  split_ifs
  · have h1 := updatePaddles_inBounds s h
    dsimp only
    unfold PaddlesInBounds
    rw [(checkBallCollisions_paddles m rL rR _).1, (checkBallCollisions_paddles m rL rR _).2]
    exact h1
  · exact h

theorem dispatch_inBounds (m : CMath α) (e : Event) (s t : GameState α)
    (h : PaddlesInBounds s) (hd : dispatch m e s = some t) : PaddlesInBounds t := by
  cases e with
  | timer rL rR =>
    simp only [dispatch, Option.some.injEq] at hd
    subst hd
    exact updateGame_inBounds m rL rR s h
  | keyDown key r0 r1 =>
    simp only [dispatch, keyboardDown] at hd
    split_ifs at hd
    · simp only [Option.some.injEq] at hd
      subst hd
      unfold PaddlesInBounds
      rw [(resetBall_frame m _ _ _).1, (resetBall_frame m _ _ _).2.1]
      exact h
    · simp only [Option.some.injEq] at hd
      subst hd
      exact h
    · simp only [Option.some.injEq] at hd
      subst hd
      exact h
  | keyUp key =>
    simp only [dispatch, keyboardUp, Option.some.injEq] at hd
    subst hd
    exact h
  | spDown key =>
    simp only [dispatch, specialDown, Option.some.injEq] at hd
    subst hd
    split_ifs <;> exact h
  | spUp key =>
    simp only [dispatch, specialUp, Option.some.injEq] at hd
    subst hd
    split_ifs <;> exact h

theorem initGL_inBounds (m : CMath α) (r0 r1 : Nat) :
    PaddlesInBounds (initGL m r0 r1 (initialState : GameState α)) := by
  unfold PaddlesInBounds initGL
  rw [(resetBall_frame m _ _ _).1, (resetBall_frame m _ _ _).2.1]
  simp only [initialState, PADDLE_HEIGHT, WINDOW_HEIGHT]
  norm_num

end Frame

/-! ### Paddle motion -/

section Paddles

variable {α : Type} [LinearOrderedField α]

/-- C1 (paddle bounds invariant): `updatePaddles` (which runs `updateAIPaddle`) maps every
state whose two paddle centres lie in `[PADDLE_HEIGHT/2, WINDOW_HEIGHT - PADDLE_HEIGHT/2]`
`= [50, 550]` to such a state, whatever the latches and the ball are; hence the bound holds
in every state reachable from the initial state by timer ticks and input events. -/
theorem paddle_bounds_invariant (m : CMath α) :
    (∀ s : GameState α, PaddlesInBounds s → PaddlesInBounds (updatePaddles s)) ∧
    (∀ s : GameState α, Reachable m s →
      ((50 : α) ≤ s.paddle1Y ∧ s.paddle1Y ≤ 550) ∧ ((50 : α) ≤ s.paddle2Y ∧ s.paddle2Y ≤ 550)) := by
  refine ⟨updatePaddles_inBounds, ?_⟩
  intro s hs
  have key : PaddlesInBounds s := by
    induction hs with
    | init r0 r1 => exact initGL_inBounds m r0 r1
    | step e s t _ hd ih => exact dispatch_inBounds m e s t ih hd
  simp only [PaddlesInBounds, PADDLE_HEIGHT, WINDOW_HEIGHT] at key
  norm_num at key
  exact key

/-- Witness for C1: the human paddle at the upper bound with the up latch set. -/
theorem paddle_bounds_invariant_witness :
    PaddlesInBounds ({ (initialState : GameState ℝ) with paddle2Y := 550, paddle2Up := true }) ∧
    PaddlesInBounds
      (updatePaddles { (initialState : GameState ℝ) with paddle2Y := 550, paddle2Up := true }) :=
  have h : PaddlesInBounds
      ({ (initialState : GameState ℝ) with paddle2Y := 550, paddle2Up := true }) := by
    simp only [PaddlesInBounds, initialState, PADDLE_HEIGHT, WINDOW_HEIGHT]
    norm_num
  ⟨h, (paddle_bounds_invariant ⟨Real.cos, Real.sin, Real.sqrt, Real.pi⟩).1 _ h⟩

/-- C4 as stated fails: with both latches set and `paddle2Y = 545` in `[50, 550]`, one call
to `updatePaddles` leaves `paddle2Y = 540`, not `545`. -/
theorem both_latches_not_net_zero :
    bothLatchesState.paddle2Up = true ∧ bothLatchesState.paddle2Down = true ∧
    (50 : ℚ) ≤ bothLatchesState.paddle2Y ∧ bothLatchesState.paddle2Y ≤ 550 ∧
    (updatePaddles bothLatchesState).paddle2Y = 540 ∧
    (updatePaddles bothLatchesState).paddle2Y ≠ bothLatchesState.paddle2Y := by
  simp [bothLatchesState, initialState, updatePaddles, updateAIPaddle, PADDLE_SPEED,
    PADDLE_HEIGHT, WINDOW_HEIGHT]
  norm_num

/-- C4 amended: with both latches set and `paddle2Y` in `[50, 550]`, one call to
`updatePaddles` leaves `paddle2Y` at `min paddle2Y 540`, where
`540 = WINDOW_HEIGHT - PADDLE_HEIGHT/2 - PADDLE_SPEED`; so the motion is net zero exactly
when `paddle2Y ≤ 540`, and from `(540, 550]` the paddle ends at `540`. -/
theorem both_latches_motion (s : GameState α) (hu : s.paddle2Up = true)
    (hd : s.paddle2Down = true) (hl : 50 ≤ s.paddle2Y) (hh : s.paddle2Y ≤ 550) :
    (updatePaddles s).paddle2Y
        = min s.paddle2Y ((WINDOW_HEIGHT : α) - PADDLE_HEIGHT / 2 - PADDLE_SPEED) ∧
    (updatePaddles s).paddle2Y = min s.paddle2Y 540 ∧
    ((updatePaddles s).paddle2Y = s.paddle2Y ↔ s.paddle2Y ≤ 540) := by
  obtain ⟨p1, p2, bx, bY, vx, vy, s1, s2, up, dn, run⟩ := s
  simp only at hu hd hl hh
  subst hu hd
  have e : (updatePaddles
      ({ paddle1Y := p1, paddle2Y := p2, ballX := bx, ballY := bY, ballVelX := vx,
         ballVelY := vy, score1 := s1, score2 := s2, paddle2Up := true, paddle2Down := true,
         gameRunning := run } : GameState α)).paddle2Y = min p2 540 := by
    simp only [updatePaddles, updateAIPaddle, PADDLE_HEIGHT, WINDOW_HEIGHT, PADDLE_SPEED]
    norm_num
    rcases le_total p2 540 with h | h
    · rw [min_eq_left (by linarith), min_eq_left h, max_eq_left (by linarith)]
      ring
    · rw [min_eq_right (by linarith), min_eq_right h]
      norm_num
  refine ⟨?_, e, ?_⟩
  · rw [e]
    simp only [PADDLE_HEIGHT, WINDOW_HEIGHT, PADDLE_SPEED]
    norm_num
  · rw [e]
    exact min_eq_left_iff

/-- Witness for the amended C4: `paddle2Y = 300` with both latches set. -/
theorem both_latches_motion_witness :
    (updatePaddles { (initialState : GameState ℚ) with
        paddle2Y := 300, paddle2Up := true, paddle2Down := true }).paddle2Y = min 300 540 :=
  (both_latches_motion
    { (initialState : GameState ℚ) with paddle2Y := 300, paddle2Up := true, paddle2Down := true }
    rfl rfl (by norm_num) (by norm_num)).2.1

/-- C9 (AI no-overshoot): with `ballVelX < 0` and `ballY` in
`[BALL_RADIUS, WINDOW_HEIGHT - BALL_RADIUS]`, writing
`target = ballY * AI_LAG_FACTOR + (WINDOW_HEIGHT/2) * (1 - AI_LAG_FACTOR)`:
if `0.1 < |target - paddle1Y| < AI_SPEED` then `updateAIPaddle` leaves `paddle1Y = target`;
if `|target - paddle1Y| ≥ AI_SPEED` then, before clamping, the paddle has moved exactly
`AI_SPEED` toward the target. -/
theorem ai_no_overshoot (s : GameState α) (hv : s.ballVelX < 0)
    (hlo : BALL_RADIUS ≤ s.ballY) (hhi : s.ballY ≤ (WINDOW_HEIGHT : α) - BALL_RADIUS) :
    (1 / 10 < |s.ballY * AI_LAG_FACTOR + ((WINDOW_HEIGHT : α) / 2) * (1 - AI_LAG_FACTOR)
          - s.paddle1Y| →
      |s.ballY * AI_LAG_FACTOR + ((WINDOW_HEIGHT : α) / 2) * (1 - AI_LAG_FACTOR)
          - s.paddle1Y| < AI_SPEED →
      (updateAIPaddle s).paddle1Y
        = s.ballY * AI_LAG_FACTOR + ((WINDOW_HEIGHT : α) / 2) * (1 - AI_LAG_FACTOR)) ∧
    (AI_SPEED ≤ |s.ballY * AI_LAG_FACTOR + ((WINDOW_HEIGHT : α) / 2) * (1 - AI_LAG_FACTOR)
          - s.paddle1Y| →
      (s.paddle1Y < s.ballY * AI_LAG_FACTOR + ((WINDOW_HEIGHT : α) / 2) * (1 - AI_LAG_FACTOR) →
        aiTrack s = s.paddle1Y + AI_SPEED) ∧
      (s.ballY * AI_LAG_FACTOR + ((WINDOW_HEIGHT : α) / 2) * (1 - AI_LAG_FACTOR) < s.paddle1Y →
        aiTrack s = s.paddle1Y - AI_SPEED) ∧
      (updateAIPaddle s).paddle1Y
        = max (min (aiTrack s) ((WINDOW_HEIGHT : α) - PADDLE_HEIGHT / 2)) (PADDLE_HEIGHT / 2)) := by
  simp only [BALL_RADIUS, WINDOW_HEIGHT, AI_LAG_FACTOR, AI_SPEED, PADDLE_HEIGHT] at *
  push_cast at *
  set target : α := s.ballY * (3 / 4) + 600 / 2 * (1 - 3 / 4) with htarget
  have ht1 : (50 : α) ≤ target := by rw [htarget]; linarith
  have ht2 : target ≤ 550 := by rw [htarget]; linarith
  refine ⟨fun h1 h2 => ?_, fun h3 => ⟨fun hlt => ?_, fun hgt => ?_, ?_⟩⟩
  · have ha : aiTrack s = target := by
      simp only [aiTrack, BALL_RADIUS, WINDOW_HEIGHT, AI_LAG_FACTOR, AI_SPEED]
      push_cast
      rw [← htarget, if_pos hv, if_pos h1, if_pos h2]
      split_ifs with hpos
      · rw [abs_of_pos hpos]; ring
      · rw [abs_of_nonpos (not_lt.mp hpos)]; ring
    simp only [updateAIPaddle, ha, WINDOW_HEIGHT, PADDLE_HEIGHT]
    push_cast
    rw [min_eq_left (by linarith), max_eq_left (by linarith)]
  · have h1 : (1 : α) / 10 < |target - s.paddle1Y| := by linarith
    simp only [aiTrack, BALL_RADIUS, WINDOW_HEIGHT, AI_LAG_FACTOR, AI_SPEED]
    push_cast
    rw [← htarget, if_pos hv, if_pos h1, if_neg (not_lt.mpr h3), if_pos (by linarith)]
  · have h1 : (1 : α) / 10 < |target - s.paddle1Y| := by linarith
    simp only [aiTrack, BALL_RADIUS, WINDOW_HEIGHT, AI_LAG_FACTOR, AI_SPEED]
    push_cast
    rw [← htarget, if_pos hv, if_pos h1, if_neg (not_lt.mpr h3), if_neg (by linarith)]
  · simp only [updateAIPaddle, WINDOW_HEIGHT, PADDLE_HEIGHT]
    push_cast
    rfl

/-- Witness for C9: the target is `300`, the AI paddle is at `298` (distance 2) and ends
at `300`. -/
theorem ai_no_overshoot_witness :
    (updateAIPaddle { (initialState : GameState ℚ) with
        ballVelX := -5, paddle1Y := 298 }).paddle1Y = 300 := by
  have h := (ai_no_overshoot
    { (initialState : GameState ℚ) with ballVelX := -5, paddle1Y := 298 }
    (by norm_num) (by norm_num [initialState, BALL_RADIUS, WINDOW_HEIGHT])
    (by norm_num [initialState, BALL_RADIUS, WINDOW_HEIGHT])).1
    (by norm_num [initialState, AI_LAG_FACTOR, WINDOW_HEIGHT, abs_of_pos])
    (by norm_num [initialState, AI_LAG_FACTOR, WINDOW_HEIGHT, AI_SPEED, abs_of_pos])
  rw [h]
  norm_num [initialState, AI_LAG_FACTOR, WINDOW_HEIGHT]

end Paddles

/-! ### Ball physics: walls -/

section Walls

variable {α : Type} [LinearOrderedField α]

/-- C10 (wall reflection): when the ball's vertical extent exceeds a court edge
(`ballY + BALL_RADIUS > WINDOW_HEIGHT` or `ballY - BALL_RADIUS < 0`) the wall-collision step
of `checkBallCollisions` negates `ballVelY` and clamps `ballY` into
`[BALL_RADIUS, WINDOW_HEIGHT - BALL_RADIUS]`; otherwise it leaves `ballY` and `ballVelY`
unchanged.  At `ballY = -1`, `ballVelY = -3` it gives `ballVelY = 3`, `ballY = 10`. -/
theorem wall_reflection (s : GameState α) :
    (s.ballY + BALL_RADIUS > (WINDOW_HEIGHT : α) ∨ s.ballY - BALL_RADIUS < 0 →
      (wallCollision s).ballVelY = -s.ballVelY ∧
      (wallCollision s).ballY
        = max BALL_RADIUS (min s.ballY ((WINDOW_HEIGHT : α) - BALL_RADIUS)) ∧
      BALL_RADIUS ≤ (wallCollision s).ballY ∧
      (wallCollision s).ballY ≤ (WINDOW_HEIGHT : α) - BALL_RADIUS) ∧
    (¬ (s.ballY + BALL_RADIUS > (WINDOW_HEIGHT : α) ∨ s.ballY - BALL_RADIUS < 0) →
      (wallCollision s).ballY = s.ballY ∧ (wallCollision s).ballVelY = s.ballVelY) ∧
    (s.ballY = -1 → s.ballVelY = -3 →
      (wallCollision s).ballVelY = 3 ∧ (wallCollision s).ballY = BALL_RADIUS ∧
      (wallCollision s).ballY = 10) := by
  refine ⟨fun h => ?_, fun h => ?_, fun hy hv => ?_⟩
  · rw [wallCollision, if_pos h]
    refine ⟨by simp, rfl, le_max_left _ _, max_le ?_ (min_le_right _ _)⟩
    simp only [BALL_RADIUS, WINDOW_HEIGHT]
    norm_num
  · rw [wallCollision, if_neg h]
    exact ⟨rfl, rfl⟩
  · have h : s.ballY + BALL_RADIUS > (WINDOW_HEIGHT : α) ∨ s.ballY - BALL_RADIUS < 0 := by
      right
      rw [hy]
      simp only [BALL_RADIUS]
      norm_num
    simp only [wallCollision, if_pos h, hy, hv, BALL_RADIUS, WINDOW_HEIGHT]
    norm_num

/-- Witness for C10: the ball at `ballY = -1` with `ballVelY = -3`. -/
theorem wall_reflection_witness :
    (wallCollision { (initialState : GameState ℚ) with ballY := -1, ballVelY := -3 }).ballVelY = 3 ∧
    (wallCollision { (initialState : GameState ℚ) with ballY := -1, ballVelY := -3 }).ballY = 10 :=
  have h := (wall_reflection
    { (initialState : GameState ℚ) with ballY := -1, ballVelY := -3 }).2.2 rfl rfl
  ⟨h.1, h.2.2⟩

end Walls

/-! ### Scoring -/

section Scoring

variable {α : Type} [LinearOrderedField α]

/-- The left-goal branch of `checkBallCollisions`, in the match-ending case and in the
continuing case. -/
theorem checkBallCollisions_leftGoal (m : CMath α) (rL rR : Nat) (s : GameState α)
    (h : s.ballX - BALL_RADIUS < 0) :
    (WINNING_SCORE ≤ s.score2 + 1 →
      (checkBallCollisions m rL rR s).score2 = s.score2 + 1 ∧
      (checkBallCollisions m rL rR s).score1 = s.score1 ∧
      (checkBallCollisions m rL rR s).gameRunning = false ∧
      (checkBallCollisions m rL rR s).ballX = s.ballX) ∧
    (s.score2 + 1 < WINNING_SCORE →
      (checkBallCollisions m rL rR s).score2 = s.score2 + 1 ∧
      (checkBallCollisions m rL rR s).score1 = s.score1 ∧
      (checkBallCollisions m rL rR s).gameRunning = s.gameRunning ∧
      (checkBallCollisions m rL rR s).ballX = (WINDOW_WIDTH : α) / 2 ∧
      (checkBallCollisions m rL rR s).ballY = (WINDOW_HEIGHT : α) / 2) := by
  rw [(checkBallCollisions_goal m rL rR s).1 h]
  obtain ⟨hx, h1, h2, hr⟩ := preGoal_frame m s
  set u := paddle2Collision m (paddle1Collision m (wallCollision s)) with hu
  have hux : u.ballX - BALL_RADIUS < 0 := by rw [hx]; exact h
  constructor
  · intro hw
    rw [goalLeft_win m rL u hux (by rw [h2]; exact hw)]
    simp only [h1, h2, hx, and_self]
  · intro hw
    rw [goalLeft_reset m rL u hux (by rw [h2]; exact hw)]
    obtain ⟨-, -, f1, f2, f3, f4, f5⟩ := resetBall_frame m rL 2 { u with score2 := u.score2 + 1 }
    rw [f1, f2, f3, f4, f5]
    simp only [h1, h2, hr, and_self]

/-- C6 (scoring transition at the left edge): when `ballX - BALL_RADIUS < 0`, one call to
`checkBallCollisions` increases `score2` by exactly 1 and leaves `score1` unchanged; if the
new `score2` is at least `WINNING_SCORE` then `gameRunning` becomes false and `ballX` is
unchanged (not recentred to `WINDOW_WIDTH/2`), otherwise `gameRunning` is unchanged and the
ball is recentred at `(WINDOW_WIDTH/2, WINDOW_HEIGHT/2)`.  From scores `(9, 9)` the result
is `score2 = 10`, `score1 = 9`, `gameRunning = false`. -/
theorem left_goal_transition (m : CMath α) (rL rR : Nat) (s : GameState α)
    (h : s.ballX - BALL_RADIUS < 0) :
    (checkBallCollisions m rL rR s).score2 = s.score2 + 1 ∧
    (checkBallCollisions m rL rR s).score1 = s.score1 ∧
    (WINNING_SCORE ≤ s.score2 + 1 →
      (checkBallCollisions m rL rR s).gameRunning = false ∧
      (checkBallCollisions m rL rR s).ballX = s.ballX ∧
      (checkBallCollisions m rL rR s).ballX ≠ (WINDOW_WIDTH : α) / 2) ∧
    (s.score2 + 1 < WINNING_SCORE →
      (checkBallCollisions m rL rR s).gameRunning = s.gameRunning ∧
      (checkBallCollisions m rL rR s).ballX = (WINDOW_WIDTH : α) / 2 ∧
      (checkBallCollisions m rL rR s).ballY = (WINDOW_HEIGHT : α) / 2) ∧
    (s.score1 = 9 → s.score2 = 9 →
      (checkBallCollisions m rL rR s).score2 = 10 ∧
      (checkBallCollisions m rL rR s).score1 = 9 ∧
      (checkBallCollisions m rL rR s).gameRunning = false) := by
  obtain ⟨win, cont⟩ := checkBallCollisions_leftGoal m rL rR s h
  refine ⟨?_, ?_, ?_, ?_, ?_⟩
  · rcases le_or_lt WINNING_SCORE (s.score2 + 1) with hw | hw
    · exact (win hw).1
    · exact (cont hw).1
  · rcases le_or_lt WINNING_SCORE (s.score2 + 1) with hw | hw
    · exact (win hw).2.1
    · exact (cont hw).2.1
  · intro hw
    refine ⟨(win hw).2.2.1, (win hw).2.2.2, ?_⟩
    rw [(win hw).2.2.2]
    simp only [BALL_RADIUS, WINDOW_WIDTH] at h ⊢
    push_cast
    intro hc
    rw [hc] at h
    norm_num at h
  · intro hw
    exact (cont hw).2.2
  · intro e1 e2
    have hw : WINNING_SCORE ≤ s.score2 + 1 := by rw [e2]; decide
    obtain ⟨a, b, c, -⟩ := win hw
    rw [a, b, e1, e2]
    exact ⟨rfl, rfl, c⟩

/-- Witness for C6: the ball at `ballX = 5` with scores `(9, 9)`. -/
theorem left_goal_transition_witness :
    (checkBallCollisions ⟨Real.cos, Real.sin, Real.sqrt, Real.pi⟩ 0 0
      { (initialState : GameState ℝ) with ballX := 5, score1 := 9, score2 := 9 }).score2 = 10 ∧
    (checkBallCollisions ⟨Real.cos, Real.sin, Real.sqrt, Real.pi⟩ 0 0
      { (initialState : GameState ℝ) with ballX := 5, score1 := 9, score2 := 9 }).score1 = 9 ∧
    (checkBallCollisions ⟨Real.cos, Real.sin, Real.sqrt, Real.pi⟩ 0 0
      { (initialState : GameState ℝ) with ballX := 5, score1 := 9, score2 := 9 }).gameRunning
        = false :=
  (left_goal_transition ⟨Real.cos, Real.sin, Real.sqrt, Real.pi⟩ 0 0
    { (initialState : GameState ℝ) with ballX := 5, score1 := 9, score2 := 9 }
    (by norm_num [BALL_RADIUS])).2.2.2.2 rfl rfl

theorem checkBallCollisions_leftReset (m : CMath α) (rL rR : Nat) (s : GameState α)
    (h : s.ballX - BALL_RADIUS < 0) (hw : s.score2 + 1 < WINNING_SCORE) :
    checkBallCollisions m rL rR s
      = resetBall m rL 2
          { paddle2Collision m (paddle1Collision m (wallCollision s)) with
            score2 := (paddle2Collision m (paddle1Collision m (wallCollision s))).score2 + 1 } := by
  rw [(checkBallCollisions_goal m rL rR s).1 h]
  obtain ⟨hx, -, h2, -⟩ := preGoal_frame m s
  apply goalLeft_reset
  · rw [hx]; exact h
  · rw [h2]; exact hw

theorem checkBallCollisions_rightReset (m : CMath α) (rL rR : Nat) (s : GameState α)
    (h : s.ballX + BALL_RADIUS > (WINDOW_WIDTH : α)) (hw : s.score1 + 1 < WINNING_SCORE) :
    checkBallCollisions m rL rR s
      = resetBall m rR 1
          { paddle2Collision m (paddle1Collision m (wallCollision s)) with
            score1 := (paddle2Collision m (paddle1Collision m (wallCollision s))).score1 + 1 } := by
  have hL : ¬ s.ballX - BALL_RADIUS < 0 := by
    simp only [BALL_RADIUS, WINDOW_WIDTH] at h ⊢
    push_cast at h
    intro hc
    linarith
  rw [(checkBallCollisions_goal m rL rR s).2 hL]
  obtain ⟨hx, h1, -, -⟩ := preGoal_frame m s
  apply goalRight_reset
  · rw [hx]; exact h
  · rw [h1]; exact hw

end Scoring

/-! ### Serve direction -/

section Serve

/-- The launch angle `((rand() % 90) - 45) * (M_PI / 180)` lies strictly between
`-π/2` and `π/2`, so its cosine is positive. -/
theorem serveAngle_cos_pos (r : Nat) :
    0 < Real.cos ((((((r % 90 : Nat) : Int) - 45 : Int)) : ℝ) * (Real.pi / 180)) := by
  have hz1 : (-45 : Int) ≤ ((r % 90 : Nat) : Int) - 45 := by omega
  have hz2 : ((r % 90 : Nat) : Int) - 45 ≤ 44 := by omega
  generalize ((r % 90 : Nat) : Int) - 45 = z at hz1 hz2
  have hx1 : (-45 : ℝ) ≤ (z : ℝ) := by exact_mod_cast hz1
  have hx2 : (z : ℝ) ≤ 44 := by exact_mod_cast hz2
  have hpi := Real.pi_pos
  apply Real.cos_pos_of_mem_Ioo
  constructor
  · nlinarith
  · nlinarith

theorem resetBall_ballVelX (m : CMath ℝ) (r : Nat) (k : Int) (s : GameState ℝ) :
    (resetBall m r k s).ballVelX
      = m.cos ((((((r % 90 : Nat) : Int) - 45 : Int)) : ℝ) * (m.pi / 180))
          * (if k = 1 then 5 else -5) := by
  by_cases hk : k = 1
  · simp [resetBall, hk]
  · simp [resetBall, hk]

/-- C8 (`resetBall` serve sign): for every prior state and every value `r` of `rand()`,
`resetBall(1)` (the AI scored) leaves `ballVelX > 0` (toward the human, right side) and
`resetBall` with any other argument, e.g. `2`, leaves `ballVelX < 0` (toward the AI, left
side): the cosine of the launch angle `((r % 90) - 45)` degrees is positive and never flips
the sign. -/
theorem resetBall_serve_sign (r : Nat) (k : Int) (s : GameState ℝ) :
    0 < (resetBall ⟨Real.cos, Real.sin, Real.sqrt, Real.pi⟩ r 1 s).ballVelX ∧
    (k ≠ 1 → (resetBall ⟨Real.cos, Real.sin, Real.sqrt, Real.pi⟩ r k s).ballVelX < 0) ∧
    (resetBall ⟨Real.cos, Real.sin, Real.sqrt, Real.pi⟩ r 2 s).ballVelX < 0 ∧
    0 < Real.cos ((((((r % 90 : Nat) : Int) - 45 : Int)) : ℝ) * (Real.pi / 180)) := by
  have hc := serveAngle_cos_pos r
  have hneg : ∀ k : Int, k ≠ 1 →
      (resetBall ⟨Real.cos, Real.sin, Real.sqrt, Real.pi⟩ r k s).ballVelX < 0 := by
    intro k hk
    rw [resetBall_ballVelX, if_neg hk]
    exact mul_neg_of_pos_of_neg hc (by norm_num)
  refine ⟨?_, hneg k, hneg 2 (by decide), hc⟩
  rw [resetBall_ballVelX, if_pos rfl]
  exact mul_pos hc (by norm_num)

/-- Witness for C8: `resetBall(3)` with `rand() = 7`. -/
theorem resetBall_serve_sign_witness :
    (resetBall ⟨Real.cos, Real.sin, Real.sqrt, Real.pi⟩ 7 3 (initialState : GameState ℝ)).ballVelX
      < 0 :=
  (resetBall_serve_sign 7 3 initialState).2.1 (by decide)

/-- C3 as stated fails.  With the ball at `ballX = 5` (left-edge goal, human scores,
`score2 + 1 = 1 < WINNING_SCORE`) and `rand() = 45`, one collision pass leaves
`ballVelX = -5`, which is not `> 0`; with the ball at `ballX = 795` (right-edge goal, AI
scores) it leaves `ballVelX = 5`, which is not `< 0`. -/
theorem serve_direction_as_stated_fails :
    (({ (initialState : GameState ℝ) with ballX := 5, ballY := 100, ballVelX := -5 }
        : GameState ℝ).ballX - BALL_RADIUS < 0 ∧
      ({ (initialState : GameState ℝ) with ballX := 5, ballY := 100, ballVelX := -5 }
        : GameState ℝ).score2 + 1 < WINNING_SCORE ∧
      (checkBallCollisions ⟨Real.cos, Real.sin, Real.sqrt, Real.pi⟩ 45 45
        { (initialState : GameState ℝ) with ballX := 5, ballY := 100, ballVelX := -5 }).ballVelX
          = -5 ∧
      ¬ 0 < (checkBallCollisions ⟨Real.cos, Real.sin, Real.sqrt, Real.pi⟩ 45 45
        { (initialState : GameState ℝ) with ballX := 5, ballY := 100, ballVelX := -5 }).ballVelX) ∧
    (({ (initialState : GameState ℝ) with ballX := 795, ballY := 100 }
        : GameState ℝ).ballX + BALL_RADIUS > (WINDOW_WIDTH : ℝ) ∧
      ({ (initialState : GameState ℝ) with ballX := 795, ballY := 100 }
        : GameState ℝ).score1 + 1 < WINNING_SCORE ∧
      (checkBallCollisions ⟨Real.cos, Real.sin, Real.sqrt, Real.pi⟩ 45 45
        { (initialState : GameState ℝ) with ballX := 795, ballY := 100 }).ballVelX = 5 ∧
      ¬ (checkBallCollisions ⟨Real.cos, Real.sin, Real.sqrt, Real.pi⟩ 45 45
        { (initialState : GameState ℝ) with ballX := 795, ballY := 100 }).ballVelX < 0) := by
  have hL : ({ (initialState : GameState ℝ) with ballX := 5, ballY := 100, ballVelX := -5 }
      : GameState ℝ).ballX - BALL_RADIUS < 0 := by
    norm_num [BALL_RADIUS]
  have hLw : ({ (initialState : GameState ℝ) with ballX := 5, ballY := 100, ballVelX := -5 }
      : GameState ℝ).score2 + 1 < WINNING_SCORE := by
    simp [initialState, WINNING_SCORE]
  have hR : ({ (initialState : GameState ℝ) with ballX := 795, ballY := 100 }
      : GameState ℝ).ballX + BALL_RADIUS > (WINDOW_WIDTH : ℝ) := by
    norm_num [BALL_RADIUS, WINDOW_WIDTH]
  have hRw : ({ (initialState : GameState ℝ) with ballX := 795, ballY := 100 }
      : GameState ℝ).score1 + 1 < WINNING_SCORE := by
    simp [initialState, WINNING_SCORE]
  have eL : (checkBallCollisions ⟨Real.cos, Real.sin, Real.sqrt, Real.pi⟩ 45 45
      { (initialState : GameState ℝ) with ballX := 5, ballY := 100, ballVelX := -5 }).ballVelX
        = -5 := by
    rw [checkBallCollisions_leftReset _ 45 45 _ hL hLw, resetBall_ballVelX]
    norm_num
  have eR : (checkBallCollisions ⟨Real.cos, Real.sin, Real.sqrt, Real.pi⟩ 45 45
      { (initialState : GameState ℝ) with ballX := 795, ballY := 100 }).ballVelX = 5 := by
    rw [checkBallCollisions_rightReset _ 45 45 _ hR hRw, resetBall_ballVelX]
    norm_num
  refine ⟨⟨hL, hLw, eL, ?_⟩, ⟨hR, hRw, eR, ?_⟩⟩
  · rw [eL]; norm_num
  · rw [eR]; norm_num

/-- C3 amended: when one collision pass detects a left-edge goal
(`ballX - BALL_RADIUS < 0`, the human scores) that does not end the match
(`score2 + 1 < WINNING_SCORE`), the ball is served toward the AI side, the side that
conceded: the resulting `ballVelX` is `< 0`; symmetrically a right-edge goal
(`ballX + BALL_RADIUS > WINDOW_WIDTH`, the AI scores) that does not end the match leaves
`ballVelX > 0`, serving toward the human side. -/
theorem serve_direction_after_goal (rL rR : Nat) (s : GameState ℝ) :
    (s.ballX - BALL_RADIUS < 0 → s.score2 + 1 < WINNING_SCORE →
      (checkBallCollisions ⟨Real.cos, Real.sin, Real.sqrt, Real.pi⟩ rL rR s).ballVelX < 0) ∧
    (s.ballX + BALL_RADIUS > (WINDOW_WIDTH : ℝ) → s.score1 + 1 < WINNING_SCORE →
      0 < (checkBallCollisions ⟨Real.cos, Real.sin, Real.sqrt, Real.pi⟩ rL rR s).ballVelX) := by
  constructor
  · intro h hw
    rw [checkBallCollisions_leftReset _ rL rR s h hw, resetBall_ballVelX,
      if_neg (by decide)]
    exact mul_neg_of_pos_of_neg (serveAngle_cos_pos rL) (by norm_num)
  · intro h hw
    rw [checkBallCollisions_rightReset _ rL rR s h hw, resetBall_ballVelX, if_pos rfl]
    exact mul_pos (serveAngle_cos_pos rR) (by norm_num)

/-- Witness for the amended C3: a left-edge goal at `ballX = 5` with `rand() = 7`. -/
theorem serve_direction_after_goal_witness :
    (checkBallCollisions ⟨Real.cos, Real.sin, Real.sqrt, Real.pi⟩ 7 7
      { (initialState : GameState ℝ) with ballX := 5, ballVelX := -5 }).ballVelX < 0 :=
  (serve_direction_after_goal 7 7
    { (initialState : GameState ℝ) with ballX := 5, ballVelX := -5 }).1
    (by norm_num [BALL_RADIUS]) (by simp [initialState, WINNING_SCORE])

end Serve

/-! ### Ball physics: paddle bounces -/

section Bounce

theorem paddle1Collision_fire (m : CMath ℝ) (s : GameState ℝ)
    (h1 : s.ballX - BALL_RADIUS < PADDLE_WIDTH * 2 + PADDLE_WIDTH ∧ s.ballVelX < 0)
    (h2 : s.ballY < s.paddle1Y + PADDLE_HEIGHT / 2 ∧ s.ballY > s.paddle1Y - PADDLE_HEIGHT / 2) :
    (paddle1Collision m s).ballVelX
      = |m.cos ((s.ballY - s.paddle1Y) / (PADDLE_HEIGHT / 2) * (m.pi / 4))
          * (m.sqrt (s.ballVelX * s.ballVelX + s.ballVelY * s.ballVelY) + ballSpeedIncrease)| ∧
    (paddle1Collision m s).ballVelY
      = m.sin ((s.ballY - s.paddle1Y) / (PADDLE_HEIGHT / 2) * (m.pi / 4))
          * (m.sqrt (s.ballVelX * s.ballVelX + s.ballVelY * s.ballVelY) + ballSpeedIncrease) := by
  rw [paddle1Collision]
  dsimp only
  rw [if_pos h1, if_pos h2]
  exact ⟨rfl, rfl⟩

theorem paddle2Collision_fire (m : CMath ℝ) (s : GameState ℝ)
    (h1 : s.ballX + BALL_RADIUS > (WINDOW_WIDTH : ℝ) - PADDLE_WIDTH * 3 ∧ s.ballVelX > 0)
    (h2 : s.ballY < s.paddle2Y + PADDLE_HEIGHT / 2 ∧ s.ballY > s.paddle2Y - PADDLE_HEIGHT / 2) :
    (paddle2Collision m s).ballVelX
      = -|m.cos ((s.ballY - s.paddle2Y) / (PADDLE_HEIGHT / 2) * (m.pi / 4))
          * (m.sqrt (s.ballVelX * s.ballVelX + s.ballVelY * s.ballVelY) + ballSpeedIncrease)| ∧
    (paddle2Collision m s).ballVelY
      = m.sin ((s.ballY - s.paddle2Y) / (PADDLE_HEIGHT / 2) * (m.pi / 4))
          * (m.sqrt (s.ballVelX * s.ballVelX + s.ballVelY * s.ballVelY) + ballSpeedIncrease) := by
  rw [paddle2Collision]
  dsimp only
  rw [if_pos h1, if_pos h2]
  exact ⟨rfl, rfl⟩

/-- The bounced speed `sqrt (vx*vx + vy*vy) + ballSpeedIncrease` is positive. -/
theorem bounceSpeed_pos (vx vy : ℝ) :
    0 < Real.sqrt (vx * vx + vy * vy) + (ballSpeedIncrease : ℝ) := by
  have h := Real.sqrt_nonneg (vx * vx + vy * vy)
  simp only [ballSpeedIncrease]
  linarith

/-- A velocity `(± |cos a * c|, sin a * c)` with `0 ≤ c` has magnitude `c`. -/
theorem bounce_magnitude (a c : ℝ) (hc : 0 ≤ c) :
    Real.sqrt (|Real.cos a * c| ^ 2 + (Real.sin a * c) ^ 2) = c := by
  have e : |Real.cos a * c| ^ 2 + (Real.sin a * c) ^ 2 = c ^ 2 := by
    rw [sq_abs]
    have := Real.sin_sq_add_cos_sq a
    nlinarith
  rw [e, Real.sqrt_sq hc]

/-- C5 (speed monotonicity): whenever a paddle-collision branch of `checkBallCollisions`
fires (AI paddle or human paddle), for every incoming velocity and every offset of `ballY`
inside the paddle's vertical extent, the assigned velocity has magnitude
`sqrt (vx'^2 + vy'^2)` equal to the pre-bounce magnitude `sqrt (vx^2 + vy^2)` plus
`ballSpeedIncrease = 0.5`, over the reals. -/
theorem bounce_speed_increment (s : GameState ℝ) :
    (s.ballX - BALL_RADIUS < PADDLE_WIDTH * 2 + PADDLE_WIDTH ∧ s.ballVelX < 0 →
      s.ballY < s.paddle1Y + PADDLE_HEIGHT / 2 ∧ s.ballY > s.paddle1Y - PADDLE_HEIGHT / 2 →
      Real.sqrt ((paddle1Collision ⟨Real.cos, Real.sin, Real.sqrt, Real.pi⟩ s).ballVelX ^ 2
          + (paddle1Collision ⟨Real.cos, Real.sin, Real.sqrt, Real.pi⟩ s).ballVelY ^ 2)
        = Real.sqrt (s.ballVelX ^ 2 + s.ballVelY ^ 2) + ballSpeedIncrease) ∧
    (s.ballX + BALL_RADIUS > (WINDOW_WIDTH : ℝ) - PADDLE_WIDTH * 3 ∧ s.ballVelX > 0 →
      s.ballY < s.paddle2Y + PADDLE_HEIGHT / 2 ∧ s.ballY > s.paddle2Y - PADDLE_HEIGHT / 2 →
      Real.sqrt ((paddle2Collision ⟨Real.cos, Real.sin, Real.sqrt, Real.pi⟩ s).ballVelX ^ 2
          + (paddle2Collision ⟨Real.cos, Real.sin, Real.sqrt, Real.pi⟩ s).ballVelY ^ 2)
        = Real.sqrt (s.ballVelX ^ 2 + s.ballVelY ^ 2) + ballSpeedIncrease) ∧
    (ballSpeedIncrease : ℝ) = 1 / 2 := by
  have hsq : s.ballVelX ^ 2 + s.ballVelY ^ 2 = s.ballVelX * s.ballVelX + s.ballVelY * s.ballVelY := by
    ring
  have hc := le_of_lt (bounceSpeed_pos s.ballVelX s.ballVelY)
  refine ⟨fun h1 h2 => ?_, fun h1 h2 => ?_, rfl⟩
  · obtain ⟨ex, ey⟩ := paddle1Collision_fire ⟨Real.cos, Real.sin, Real.sqrt, Real.pi⟩ s h1 h2
    rw [ex, ey, hsq]
    exact bounce_magnitude _ _ hc
  · obtain ⟨ex, ey⟩ := paddle2Collision_fire ⟨Real.cos, Real.sin, Real.sqrt, Real.pi⟩ s h1 h2
    rw [ex, ey, hsq, neg_sq]
    exact bounce_magnitude _ _ hc

/-- Witness for C5: the ball at `(50, 320)` moving with velocity `(-3, 4)` (speed 5) onto
the AI paddle centred at `300` leaves with speed `5.5`. -/
theorem bounce_speed_increment_witness :
    Real.sqrt
        ((paddle1Collision ⟨Real.cos, Real.sin, Real.sqrt, Real.pi⟩
            { (initialState : GameState ℝ) with
              ballX := 50, ballY := 320, ballVelX := -3, ballVelY := 4 }).ballVelX ^ 2
          + (paddle1Collision ⟨Real.cos, Real.sin, Real.sqrt, Real.pi⟩
            { (initialState : GameState ℝ) with
              ballX := 50, ballY := 320, ballVelX := -3, ballVelY := 4 }).ballVelY ^ 2)
      = Real.sqrt ((-3 : ℝ) ^ 2 + 4 ^ 2) + ballSpeedIncrease :=
  (bounce_speed_increment
    { (initialState : GameState ℝ) with
      ballX := 50, ballY := 320, ballVelX := -3, ballVelY := 4 }).1
    (by norm_num [BALL_RADIUS, PADDLE_WIDTH])
    (by norm_num [initialState, PADDLE_HEIGHT, WINDOW_HEIGHT])

/-- The bounce angle `normalRelativeY * (M_PI / 4)` of a ball strictly inside the
paddle's vertical extent has a positive cosine. -/
theorem bounceAngle_cos_pos (y p : ℝ) (h1 : y < p + PADDLE_HEIGHT / 2)
    (h2 : y > p - PADDLE_HEIGHT / 2) :
    0 < Real.cos ((y - p) / (PADDLE_HEIGHT / 2) * (Real.pi / 4)) := by
  simp only [PADDLE_HEIGHT] at h1 h2 ⊢
  have hpi := Real.pi_pos
  have e : (y - p) / (100 / 2) * (Real.pi / 4) = (y - p) * (Real.pi / 200) := by ring
  rw [e]
  apply Real.cos_pos_of_mem_Ioo
  constructor
  · nlinarith
  · nlinarith

/-- With the AI paddle in bounds, the wall step keeps a ball that is strictly inside the
paddle's vertical extent strictly inside it. -/
theorem wallCollision_keeps_extent (s : GameState ℝ)
    (hp : PADDLE_HEIGHT / 2 ≤ s.paddle1Y ∧ s.paddle1Y ≤ (WINDOW_HEIGHT : ℝ) - PADDLE_HEIGHT / 2)
    (hy : s.paddle1Y - PADDLE_HEIGHT / 2 < s.ballY ∧ s.ballY < s.paddle1Y + PADDLE_HEIGHT / 2) :
    (wallCollision s).ballY < s.paddle1Y + PADDLE_HEIGHT / 2 ∧
    (wallCollision s).ballY > s.paddle1Y - PADDLE_HEIGHT / 2 := by
  obtain ⟨hp1, hp2⟩ := hp
  obtain ⟨hy1, hy2⟩ := hy
  rw [wallCollision]
  simp only [PADDLE_HEIGHT, WINDOW_HEIGHT, BALL_RADIUS] at *
  push_cast at *
  split_ifs with hw
  · dsimp only
    constructor
    · apply max_lt
      · linarith
      · exact lt_of_le_of_lt (min_le_left _ _) hy2
    · apply lt_max_of_lt_right
      apply lt_min hy1
      linarith
  · exact ⟨hy2, hy1⟩

/-- C2 as stated fails.  (a) The ball at `ballX = 5`, level with the paddle centre and
moving left: the pass bounces it, then detects a left-edge goal (`score2` becomes 1) and
re-serves with `ballVelX = -5`.  (b) With the AI paddle outside the court (`paddle1Y = 700`)
and the ball at `ballY = 660` inside the paddle's extent, the wall step first clamps
`ballY` to `590`, outside the extent, and `ballVelX` stays `-5`. -/
theorem paddle_bounce_as_stated_fails :
    (({ (initialState : GameState ℝ) with ballX := 5, ballVelX := -5 }
        : GameState ℝ).ballVelX < 0 ∧
      ({ (initialState : GameState ℝ) with ballX := 5, ballVelX := -5 }
        : GameState ℝ).ballX - BALL_RADIUS < PADDLE_WIDTH * 2 + PADDLE_WIDTH ∧
      ({ (initialState : GameState ℝ) with ballX := 5, ballVelX := -5 }
        : GameState ℝ).paddle1Y - 50 <
        ({ (initialState : GameState ℝ) with ballX := 5, ballVelX := -5 } : GameState ℝ).ballY ∧
      ({ (initialState : GameState ℝ) with ballX := 5, ballVelX := -5 } : GameState ℝ).ballY <
        ({ (initialState : GameState ℝ) with ballX := 5, ballVelX := -5 }
          : GameState ℝ).paddle1Y + 50 ∧
      (checkBallCollisions ⟨Real.cos, Real.sin, Real.sqrt, Real.pi⟩ 45 45
        { (initialState : GameState ℝ) with ballX := 5, ballVelX := -5 }).ballVelX = -5 ∧
      (checkBallCollisions ⟨Real.cos, Real.sin, Real.sqrt, Real.pi⟩ 45 45
        { (initialState : GameState ℝ) with ballX := 5, ballVelX := -5 }).score2 = 1 ∧
      ¬ 0 < (checkBallCollisions ⟨Real.cos, Real.sin, Real.sqrt, Real.pi⟩ 45 45
        { (initialState : GameState ℝ) with ballX := 5, ballVelX := -5 }).ballVelX) ∧
    (({ (initialState : GameState ℝ) with
          ballX := 50, ballY := 660, ballVelX := -5, paddle1Y := 700 }
        : GameState ℝ).ballX - BALL_RADIUS < PADDLE_WIDTH * 2 + PADDLE_WIDTH ∧
      (checkBallCollisions ⟨Real.cos, Real.sin, Real.sqrt, Real.pi⟩ 45 45
        { (initialState : GameState ℝ) with
          ballX := 50, ballY := 660, ballVelX := -5, paddle1Y := 700 }).ballY = 590 ∧
      (checkBallCollisions ⟨Real.cos, Real.sin, Real.sqrt, Real.pi⟩ 45 45
        { (initialState : GameState ℝ) with
          ballX := 50, ballY := 660, ballVelX := -5, paddle1Y := 700 }).ballVelX = -5 ∧
      ¬ 0 < (checkBallCollisions ⟨Real.cos, Real.sin, Real.sqrt, Real.pi⟩ 45 45
        { (initialState : GameState ℝ) with
          ballX := 50, ballY := 660, ballVelX := -5, paddle1Y := 700 }).ballVelX) := by
  have hL : ({ (initialState : GameState ℝ) with ballX := 5, ballVelX := -5 }
      : GameState ℝ).ballX - BALL_RADIUS < 0 := by
    norm_num [BALL_RADIUS]
  have hLw : ({ (initialState : GameState ℝ) with ballX := 5, ballVelX := -5 }
      : GameState ℝ).score2 + 1 < WINNING_SCORE := by
    simp [initialState, WINNING_SCORE]
  have eL : (checkBallCollisions ⟨Real.cos, Real.sin, Real.sqrt, Real.pi⟩ 45 45
      { (initialState : GameState ℝ) with ballX := 5, ballVelX := -5 }).ballVelX = -5 := by
    rw [checkBallCollisions_leftReset _ 45 45 _ hL hLw, resetBall_ballVelX]
    norm_num
  have sL : (checkBallCollisions ⟨Real.cos, Real.sin, Real.sqrt, Real.pi⟩ 45 45
      { (initialState : GameState ℝ) with ballX := 5, ballVelX := -5 }).score2 = 1 := by
    rw [((checkBallCollisions_leftGoal _ 45 45 _ hL).2 hLw).1]
    simp [initialState]
  have eW : checkBallCollisions ⟨Real.cos, Real.sin, Real.sqrt, Real.pi⟩ 45 45
      { (initialState : GameState ℝ) with
        ballX := 50, ballY := 660, ballVelX := -5, paddle1Y := 700 }
      = { (initialState : GameState ℝ) with
        ballX := 50, ballY := 590, ballVelX := -5, ballVelY := 0, paddle1Y := 700 } := by
    simp only [checkBallCollisions, wallCollision, paddle1Collision, paddle2Collision, goalLeft,
      goalRight, initialState, BALL_RADIUS, PADDLE_WIDTH, PADDLE_HEIGHT, WINDOW_HEIGHT,
      WINDOW_WIDTH]
    norm_num
  refine ⟨⟨by norm_num, by norm_num [BALL_RADIUS, PADDLE_WIDTH],
    by norm_num [initialState, WINDOW_HEIGHT], by norm_num [initialState, WINDOW_HEIGHT],
    eL, sL, ?_⟩, ⟨by norm_num [BALL_RADIUS, PADDLE_WIDTH], ?_, ?_, ?_⟩⟩
  · rw [eL]; norm_num
  · rw [eW]
  · rw [eW]
  · rw [eW]; norm_num

/-- C2 amended: for every state with `ballVelX < 0`, `ballX - BALL_RADIUS < 45`, the AI
paddle in bounds (`paddle1Y` in `[50, 550]`) and `ballY` strictly inside the AI paddle's
vertical extent, in which the pass does not re-serve after a left-edge goal
(`ballX - BALL_RADIUS ≥ 0`, or the goal ends the match: `score2 + 1 ≥ WINNING_SCORE`), one
call to `checkBallCollisions` leaves `ballVelX > 0`. -/
theorem paddle_bounce_direction (rL rR : Nat) (s : GameState ℝ) (hv : s.ballVelX < 0)
    (hx : s.ballX - BALL_RADIUS < PADDLE_WIDTH * 2 + PADDLE_WIDTH)
    (hp : PADDLE_HEIGHT / 2 ≤ s.paddle1Y ∧ s.paddle1Y ≤ (WINDOW_HEIGHT : ℝ) - PADDLE_HEIGHT / 2)
    (hy : s.paddle1Y - PADDLE_HEIGHT / 2 < s.ballY ∧ s.ballY < s.paddle1Y + PADDLE_HEIGHT / 2)
    (hg : 0 ≤ s.ballX - BALL_RADIUS ∨ WINNING_SCORE ≤ s.score2 + 1) :
    0 < (checkBallCollisions ⟨Real.cos, Real.sin, Real.sqrt, Real.pi⟩ rL rR s).ballVelX := by
  obtain ⟨w1, -, wx, wv, -, w2, -⟩ := wallCollision_frame s
  have hext := wallCollision_keeps_extent s hp hy
  set w := wallCollision s with hw
  rw [← w1] at hext
  have hfire := (paddle1Collision_fire ⟨Real.cos, Real.sin, Real.sqrt, Real.pi⟩ w
    ⟨by rw [wx]; exact hx, by rw [wv]; exact hv⟩ hext).1
  have hpos : 0 < (paddle1Collision ⟨Real.cos, Real.sin, Real.sqrt, Real.pi⟩ w).ballVelX := by
    rw [hfire]
    exact abs_pos.mpr (ne_of_gt (mul_pos (bounceAngle_cos_pos _ _ hext.1 hext.2)
      (bounceSpeed_pos _ _)))
  obtain ⟨-, -, px, -, -, p2, -⟩ :=
    paddle1Collision_frame ⟨Real.cos, Real.sin, Real.sqrt, Real.pi⟩ w
  set p := paddle1Collision ⟨Real.cos, Real.sin, Real.sqrt, Real.pi⟩ w with hpdef
  have hxs : s.ballX < 55 := by
    simp only [BALL_RADIUS, PADDLE_WIDTH] at hx
    linarith
  have e2 : paddle2Collision ⟨Real.cos, Real.sin, Real.sqrt, Real.pi⟩ p = p := by
    rw [paddle2Collision]
    dsimp only
    rw [if_neg]
    rintro ⟨hc, -⟩
    rw [px, wx] at hc
    simp only [BALL_RADIUS, PADDLE_WIDTH, WINDOW_WIDTH] at hc
    push_cast at hc
    linarith
  have hR : ¬ p.ballX + BALL_RADIUS > (WINDOW_WIDTH : ℝ) := by
    rw [px, wx]
    simp only [BALL_RADIUS, WINDOW_WIDTH]
    push_cast
    intro hc
    linarith
  by_cases hL : s.ballX - BALL_RADIUS < 0
  · rw [(checkBallCollisions_goal _ rL rR s).1 hL, ← hw, ← hpdef, e2]
    have hwin : WINNING_SCORE ≤ p.score2 + 1 := by
      rw [p2, w2]
      rcases hg with hg | hg
      · exact absurd hL (not_lt.mpr hg)
      · exact hg
    rw [goalLeft_win _ rL p (by rw [px, wx]; exact hL) hwin]
    exact hpos
  · rw [(checkBallCollisions_goal _ rL rR s).2 hL, ← hw, ← hpdef, e2, goalRight_none _ rR p hR]
    exact hpos

/-- Witness for the amended C2: the ball at `(50, 320)` moving left onto the AI paddle
centred at `300`. -/
theorem paddle_bounce_direction_witness :
    0 < (checkBallCollisions ⟨Real.cos, Real.sin, Real.sqrt, Real.pi⟩ 0 0
      { (initialState : GameState ℝ) with ballX := 50, ballY := 320, ballVelX := -5 }).ballVelX :=
  paddle_bounce_direction 0 0
    { (initialState : GameState ℝ) with ballX := 50, ballY := 320, ballVelX := -5 }
    (by norm_num) (by norm_num [BALL_RADIUS, PADDLE_WIDTH])
    (by norm_num [initialState, PADDLE_HEIGHT, WINDOW_HEIGHT])
    (by norm_num [initialState, PADDLE_HEIGHT, WINDOW_HEIGHT])
    (Or.inl (by norm_num [BALL_RADIUS]))

end Bounce

end Pong
